import Mathlib

/-!
Verification of `schedutils/uclampset.c` (util-linux, uclampset tool).

This file shallowly embeds the logic of `uclampset.c`:

* `Uclampset` is the C `struct uclampset` (lines 38-48);
* `set_uclamp_one_attr` is the pure attribute transformation done by
  `set_uclamp_one` (lines 208-224) between `sched_getattr` and `sched_setattr`;
* `set_uclamp_one_run` runs one per-task set against a kernel attribute store;
* `set_uclamp_tids` is the all-tasks loop of `set_uclamp_pid` (lines 227-244);
* `set_uclamp_system_t` is `set_uclamp_system` (lines 246-293), at the level of
  the values the kernel ends up parsing from the two procfs files; the byte
  level buffer construction of lines 269-277 is modelled separately by
  `set_uclamp_system_buf`;
* `mainRun` is the post-getopt part of `main` (lines 344-417), with
  `applyAndReport` covering lines 374-417.

Kernel behaviour (the scheduler attribute store and the procfs clamp knobs) is
external to the program; it is modelled from the specification as a small
explicit state (`SysKnobs`, a pid-indexed attribute map) threaded through the
functions.  Observable actions (file opens/writes, setattr calls, displays,
exec) are recorded in a trace of `Effect`s.
-/

set_option maxHeartbeats 1000000

namespace UclampModel

/-- Modelled from the spec: flag constants of the kernel scheduler attribute
interface (the repository's `sched_attr.h` is outside the embedded tree); the
numeric values are the Linux UAPI ones. -/
def SCHED_FLAG_KEEP_POLICY : Nat := 8

/-- Modelled from the spec: keep the numeric scheduling parameters. -/
def SCHED_FLAG_KEEP_PARAMS : Nat := 16

/-- Modelled from the spec: replace the util_min clamp. -/
def SCHED_FLAG_UTIL_CLAMP_MIN : Nat := 32

/-- Modelled from the spec: replace the util_max clamp. -/
def SCHED_FLAG_UTIL_CLAMP_MAX : Nat := 64

/-- C `struct uclampset` (uclampset.c lines 38-48).  `util_min` and `util_max`
are C `unsigned int` fields (values below 2^32, reduction happens on
assignment); `pid` is a `pid_t` (signed). -/
structure Uclampset where
  util_min : Nat
  util_max : Nat
  pid : Int
  all_tasks : Bool
  system : Bool
  verbose : Bool
deriving DecidableEq

/-- Modelled from the spec: the kernel `sched_attr` block (the repository's
`sched_attr.h` is outside the embedded tree): policy, flags, numeric
scheduling parameters, and the two clamp bounds. -/
structure SchedAttr where
  sched_policy : Nat
  sched_flags : Nat
  sched_nice : Int
  sched_priority : Nat
  sched_runtime : Nat
  sched_deadline : Nat
  sched_period : Nat
  sched_util_min : Nat
  sched_util_max : Nat
deriving DecidableEq

/-- The two system-wide clamp files `/proc/sys/kernel/sched_util_clamp_min`
and `sched_util_clamp_max`, as the integers they store. -/
structure SysKnobs where
  util_min : Nat
  util_max : Nat
deriving DecidableEq

/-- Structured fatal errors of uclampset (each corresponds to one `err` /
`warnx` exit path of uclampset.c; `setTidFailed`/`setPidFailed` carry the id
named in the message). -/
inductive UclampErr where
  | badUsage
  | parseError
  | invariantViolation
  | setTidFailed (tid : Int)
  | setPidFailed (pid : Int)
deriving DecidableEq

/-- Observable actions of a run.  `sysOpen true`/`sysWrite true` concern the
min knob file, `false` the max knob file.  `showTask`/`showSystem` carry the
values actually printed. -/
inductive Effect where
  | showTask (pid : Int) (mn mx : Nat)
  | showSystem (mn mx : Nat)
  | announceSetting (mn mx : Nat)
  | sysOpen (isMin : Bool)
  | sysWrite (isMin : Bool) (v : Nat)
  | taskSet (tid : Int)
  | execCmd (args : List String)
deriving DecidableEq

/-- Effects that mutate (or open for writing) kernel state; displays and the
final exec are not writes. -/
def Effect.isWrite : Effect → Bool
  | .sysOpen _ => true
  | .sysWrite _ _ => true
  | .taskSet _ => true
  | _ => false

/-- The pure transformation `set_uclamp_one` performs on the attribute block
fetched by `sched_getattr` before submitting it (uclampset.c lines 215-221):
both clamp fields are overwritten from the request and the flags are set to
KEEP_POLICY, KEEP_PARAMS, UTIL_CLAMP_MIN and UTIL_CLAMP_MAX; all other fields
of the fetched block are left as fetched. -/
def set_uclamp_one_attr (ctl : Uclampset) (sa : SchedAttr) : SchedAttr :=
  { sa with
      sched_util_min := ctl.util_min,
      sched_util_max := ctl.util_max,
      sched_flags :=
        Nat.lor SCHED_FLAG_KEEP_POLICY
          (Nat.lor SCHED_FLAG_KEEP_PARAMS
            (Nat.lor SCHED_FLAG_UTIL_CLAMP_MIN SCHED_FLAG_UTIL_CLAMP_MAX)) }

/-- Pointwise update of the pid-indexed kernel attribute store. -/
def updateTask (store : Int → SchedAttr) (pid : Int) (sa : SchedAttr) :
    Int → SchedAttr :=
  fun p => if p = pid then sa else store p

/-- One per-task set (uclampset.c `set_uclamp_one`, lines 208-224): fetch the
target's current attribute block from the store (`sched_getattr`), transform
it, and submit it through the kernel `K` (`sched_setattr`); `K` returns the
block the kernel records, or `none` for a -1 failure. -/
def set_uclamp_one_run (ctl : Uclampset) (K : Int → SchedAttr → Option SchedAttr)
    (store : Int → SchedAttr) (pid : Int) : Option (Int → SchedAttr) :=
  match K pid (set_uclamp_one_attr ctl (store pid)) with
  | some stored => some (updateTask store pid stored)
  | none => none

/-- Result of the all-tasks loop: the tid whose set failed (if any), the final
attribute store, and the tids attempted, in order. -/
structure TidsResult where
  failed : Option Int
  store : Int → SchedAttr
  attempted : List Int

/-- The all-tasks loop of `set_uclamp_pid` (uclampset.c lines 236-238): apply
`set_uclamp_one` to each enumerated tid in order; on the first failure exit
fatally (`err`) naming that tid, leaving earlier mutations in place. -/
def set_uclamp_tids (ctl : Uclampset) (K : Int → SchedAttr → Option SchedAttr) :
    List Int → (Int → SchedAttr) → TidsResult
  | [], store => ⟨none, store, []⟩
  | tid :: rest, store =>
    match set_uclamp_one_run ctl K store tid with
    | some store2 =>
      ⟨(set_uclamp_tids ctl K rest store2).failed,
       (set_uclamp_tids ctl K rest store2).store,
       tid :: (set_uclamp_tids ctl K rest store2).attempted⟩
    | none => ⟨some tid, store, [tid]⟩

/-- A per-tid success/failure switch packaged as a kernel: `sched_setattr`
stores the submitted block verbatim for tids accepted by `ok` and returns -1
for the rest. -/
def okK (ok : Int → Bool) : Int → SchedAttr → Option SchedAttr :=
  fun t sa => if ok t = true then some sa else none

/-- Modelled from the spec: the kernel attribute interface stores the
submitted clamp pair verbatim when it is valid (util_min <= util_max <= 1024)
and rejects the call otherwise; `sched_getattr` reads back the stored block. -/
def kernelValidSetattr : Int → SchedAttr → Option SchedAttr :=
  fun _ sa =>
    if sa.sched_util_min ≤ sa.sched_util_max ∧ sa.sched_util_max ≤ 1024 then
      some sa
    else none

/-- Modelled from the spec: a kernel write to the min knob file is validated
against the currently stored max (the cross-file ordering check described in
the uclampset.c comment at lines 375-401); a rejected write leaves the file
unchanged. -/
def knobWriteMin (v : Nat) (k : SysKnobs) : SysKnobs :=
  if v ≤ k.util_max then { k with util_min := v } else k

/-- Modelled from the spec: a kernel write to the max knob file is validated
against the currently stored min; a rejected write leaves the file
unchanged. -/
def knobWriteMax (v : Nat) (k : SysKnobs) : SysKnobs :=
  if k.util_min ≤ v then { k with util_max := v } else k

/-- One `set_uclamp_system` call (uclampset.c lines 246-293) at the level of
the values the kernel parses from the two files.  The local invariant check
at lines 254-257 precedes every file operation.  The `fwrite`s only fill the
16-byte stdio buffers, so the kernel-visible writes happen at the two
`fclose`s, min file first; a kernel rejection at `fclose` is invisible to the
program (the `ferror` checks run before the buffers are flushed and the
`fclose` return values are ignored), so a rejected write does not fail the
call. -/
def set_uclamp_system_t (mn mx : Nat) (k : SysKnobs) :
    Option UclampErr × SysKnobs × List Effect :=
  if mx < mn then
    (some UclampErr.invariantViolation, k, [])
  else
    (none, knobWriteMax mx (knobWriteMin mn k),
      [Effect.sysOpen true, Effect.sysOpen false,
       Effect.sysWrite true mn, Effect.sysWrite false mx])

/-- External collaborators of one run: the kernel attribute interface
(`sched_setattr` result per pid) and the thread enumeration for the target
pid (`proc_open_tasks`/`proc_next_tid`). -/
structure TaskEnv where
  setattrK : Int → SchedAttr → Option SchedAttr
  tids : List Int

/-- Kernel state visible to uclampset: the two system knob files and the
pid-indexed attribute store. -/
structure World where
  knobs : SysKnobs
  tasks : Int → SchedAttr

/-- Outcome of (part of) a run: the fatal error if any, the trace of
observable actions, and the final kernel state. -/
structure MainOut where
  err : Option UclampErr
  trace : List Effect
  world : World

/-- `show_uclamp_pid_info` (uclampset.c lines 113-134): reads the target's
current attribute block with `sched_getattr` and prints its clamp fields. -/
def show_uclamp_pid_info_eff (w : World) (pid : Int) : Effect :=
  Effect.showTask pid (w.tasks pid).sched_util_min (w.tasks pid).sched_util_max

/-- `show_uclamp_info` (uclampset.c lines 177-194): system scope reads the two
knob files; all-tasks scope shows every enumerated tid; otherwise the target
pid. -/
def show_uclamp_info_eff (ctl : Uclampset) (env : TaskEnv) (w : World) :
    List Effect :=
  if ctl.system = true then
    [Effect.showSystem w.knobs.util_min w.knobs.util_max]
  else if ctl.all_tasks = true then
    env.tids.map (show_uclamp_pid_info_eff w)
  else
    [show_uclamp_pid_info_eff w ctl.pid]

/-- `set_uclamp_pid` (uclampset.c lines 227-244): all-tasks loop over the
enumerated tids, or a single set on `ctl.pid`; a failure is fatal and names
the failing id. -/
def set_uclamp_pid_run (ctl : Uclampset) (env : TaskEnv)
    (store : Int → SchedAttr) :
    Option UclampErr × (Int → SchedAttr) × List Effect :=
  if ctl.all_tasks = true then
    match (set_uclamp_tids ctl env.setattrK env.tids store).failed with
    | some tid =>
      (some (UclampErr.setTidFailed tid),
       (set_uclamp_tids ctl env.setattrK env.tids store).store,
       (set_uclamp_tids ctl env.setattrK env.tids store).attempted.map Effect.taskSet)
    | none =>
      (none,
       (set_uclamp_tids ctl env.setattrK env.tids store).store,
       (set_uclamp_tids ctl env.setattrK env.tids store).attempted.map Effect.taskSet)
  else
    match set_uclamp_one_run ctl env.setattrK store ctl.pid with
    | some store2 => (none, store2, [Effect.taskSet ctl.pid])
    | none => (some (UclampErr.setPidFailed ctl.pid), store, [Effect.taskSet ctl.pid])

/-- uclampset.c lines 408-415: after a successful mutation, re-read and show
the state when verbose, then replace the process image when the target was the
calling process (pid 0) and not the system. -/
def finishVerbose (ctl : Uclampset) (execArgs : List String) (env : TaskEnv)
    (w : World) (tr : List Effect) : MainOut :=
  if ctl.pid = 0 ∧ ctl.system = false then
    ⟨none,
     (tr ++ (if ctl.verbose = true then show_uclamp_info_eff ctl env w else []))
       ++ [Effect.execCmd execArgs],
     w⟩
  else
    ⟨none,
     tr ++ (if ctl.verbose = true then show_uclamp_info_eff ctl env w else []),
     w⟩

/-- uclampset.c lines 374-417: system scope runs `set_uclamp_system` twice
(the double-write workaround for the kernel cross-file ordering check, see the
comment at lines 375-401); task scope runs `set_uclamp_pid`; then verbose
re-read and optional exec. -/
def applyAndReport (ctl : Uclampset) (execArgs : List String) (env : TaskEnv)
    (w : World) : MainOut :=
  if ctl.system = true then
    match set_uclamp_system_t ctl.util_min ctl.util_max w.knobs with
    | (some e, k1, tr1) => ⟨some e, tr1, ⟨k1, w.tasks⟩⟩
    | (none, k1, tr1) =>
      match set_uclamp_system_t ctl.util_min ctl.util_max k1 with
      | (some e, k2, tr2) => ⟨some e, tr1 ++ tr2, ⟨k2, w.tasks⟩⟩
      | (none, k2, tr2) => finishVerbose ctl execArgs env ⟨k2, w.tasks⟩ (tr1 ++ tr2)
  else
    match set_uclamp_pid_run ctl env w.tasks with
    | (some e, st, tr) => ⟨some e, tr, ⟨w.knobs, st⟩⟩
    | (none, st, tr) => finishVerbose ctl execArgs env ⟨w.knobs, st⟩ tr

/-- Decimal digit value of a character, as in `strtol`. -/
def digitVal (c : Char) : Option Nat :=
  if 48 ≤ c.toNat ∧ c.toNat ≤ 57 then some (c.toNat - 48) else none

/-- Accumulate decimal digits; any non-digit rejects the string. -/
def digitsToNatAux : List Char → Nat → Option Nat
  | [], acc => some acc
  | c :: r, acc =>
    match digitVal c with
    | some d => digitsToNatAux r (acc * 10 + d)
    | none => none

/-- A non-empty all-digit string as a number. -/
def digitsToNat : List Char → Option Nat
  | [] => none
  | l => digitsToNatAux l 0

/-- Optional leading minus sign, then digits. -/
def parseIntRaw : List Char → Option Int
  | '-' :: rest => (digitsToNat rest).map (fun n => -(n : Int))
  | l => (digitsToNat l).map (fun n => (n : Int))

/-- Modelled from the spec: `strtos32_or_err` from the repository's strutils
(outside the embedded tree): parse the argument as a signed 32-bit decimal
integer; a malformed or out-of-range argument is a fatal error. -/
def strtos32 (l : List Char) : Option Int :=
  (parseIntRaw l).bind
    (fun v => if -(2 ^ 31) ≤ v ∧ v ≤ 2 ^ 31 - 1 then some v else none)

/-- C conversion of a signed `int` to an `unsigned int` field: reduction
modulo 2^32 (uclampset.c lines 366-367 assign the `strtos32_or_err` results
to the `unsigned int` fields of `struct uclampset`). -/
def uintOfInt (v : Int) : Nat := (v % 2 ^ 32).toNat

/-- uclampset.c lines 362-363: an unspecified pid defaults to 0 (the calling
process). -/
def uclampPid0 (ctl0 : Uclampset) : Uclampset :=
  if ctl0.pid = -1 then { ctl0 with pid := 0 } else ctl0

/-- Display performed by the block at uclampset.c lines 350-354 (pid scope
pre-show/query). -/
def preShow1 (ctl0 : Uclampset) (args : List String) (env : TaskEnv)
    (w : World) : List Effect :=
  if ctl0.pid > -1 ∧ (ctl0.verbose = true ∨ args.length = 1) then
    show_uclamp_info_eff ctl0 env w
  else []

/-- Display performed by the block at uclampset.c lines 356-360 (system scope
pre-show/query). -/
def preShow2 (ctl0 : Uclampset) (args : List String) (env : TaskEnv)
    (w : World) : List Effect :=
  if ctl0.system = true ∧ (ctl0.verbose = true ∨ args.length < 2) then
    show_uclamp_info_eff ctl0 env w
  else []

/-- uclampset.c lines 365-372 and onward: parse the two bound arguments with
`strtos32_or_err` (fatal on failure), store them into the `unsigned int`
fields, announce them, and run the apply/report phase. -/
def mainSetPath (ctl0 : Uclampset) (args : List String) (env : TaskEnv)
    (w : World) : MainOut :=
  match args.get? 0, args.get? 1 with
  | some a0, some a1 =>
    (match strtos32 a0.data, strtos32 a1.data with
     | some v0, some v1 =>
       ⟨(applyAndReport
           { uclampPid0 ctl0 with util_min := uintOfInt v0, util_max := uintOfInt v1 }
           (args.drop 2) env w).err,
        preShow1 ctl0 args env w ++ preShow2 ctl0 args env w
          ++ [Effect.announceSetting (uintOfInt v0) (uintOfInt v1)]
          ++ (applyAndReport
               { uclampPid0 ctl0 with util_min := uintOfInt v0, util_max := uintOfInt v1 }
               (args.drop 2) env w).trace,
        (applyAndReport
          { uclampPid0 ctl0 with util_min := uintOfInt v0, util_max := uintOfInt v1 }
          (args.drop 2) env w).world⟩
     | _, _ =>
       ⟨some UclampErr.parseError,
        preShow1 ctl0 args env w ++ preShow2 ctl0 args env w, w⟩)
  | _, _ =>
    ⟨some UclampErr.badUsage,
     preShow1 ctl0 args env w ++ preShow2 ctl0 args env w, w⟩

/-- The post-getopt part of `main` (uclampset.c lines 344-417).  `ctl0` is the
control block as getopt left it (`pid` is -1 unless `-p` was given, in which
case it holds the last argument already parsed); `args` are the positionals
`argv[optind..]`. -/
def mainRun (ctl0 : Uclampset) (args : List String) (env : TaskEnv)
    (w : World) : MainOut :=
  if (ctl0.pid > -1 ∧ args.length < 1) ∨
      (ctl0.pid = -1 ∧ args.length < 2 ∧ ctl0.system = false) then
    ⟨some UclampErr.badUsage, [], w⟩
  else if ctl0.pid > -1 ∧ (ctl0.verbose = true ∨ args.length = 1) ∧ args.length = 1 then
    ⟨none, preShow1 ctl0 args env w, w⟩
  else if ctl0.system = true ∧ (ctl0.verbose = true ∨ args.length < 2) ∧ args.length < 2 then
    ⟨none, preShow1 ctl0 args env w ++ preShow2 ctl0 args env w, w⟩
  else if ((uclampPid0 ctl0).system = true ∧ args.length = 2) ∨ 3 ≤ args.length then
    mainSetPath ctl0 args env w
  else
    ⟨some UclampErr.badUsage,
     preShow1 ctl0 args env w ++ preShow2 ctl0 args env w, w⟩

/-- The `%d` rendering `snprintf` performs on the `unsigned int` value passed
at uclampset.c lines 269 and 274: the 32-bit pattern is reinterpreted as a
signed int and printed in decimal. -/
def snprintf_d (v : Nat) : List Char :=
  if v < 2 ^ 31 then Nat.toDigits 10 v
  else '-' :: Nat.toDigits 10 (2 ^ 32 - v)

/-- `snprintf` writing `data` (text plus terminating NUL) over the start of a
stack buffer: bytes past the written prefix keep their previous (for a fresh
buffer: indeterminate) contents. -/
def overwriteBuf (buf data : List Char) : List Char :=
  data ++ buf.drop data.length

/-- The exact 16 bytes `set_uclamp_system` passes to `fwrite` (uclampset.c
lines 269-272 and 274-277): `snprintf` renders the value and a NUL into the
16-byte stack buffer `buf`, then the NUL is replaced by a newline and a new
NUL is placed after it; `fwrite(buf, 1, sizeof(buf), fp)` then writes the
whole buffer, residual bytes included. -/
def set_uclamp_system_buf (v : Nat) (buf : List Char) : List Char :=
  ((overwriteBuf buf (snprintf_d v ++ [Char.ofNat 0])).set
      (snprintf_d v).length '\n').set
    ((snprintf_d v).length + 1) (Char.ofNat 0)

/-- `proc_pid_name` (uclampset.c lines 100-101): `size` is a C `int` holding
the `fread` result; the newline-stripping NUL store targets `name[size - 1]`,
computed in signed arithmetic. -/
def proc_pid_name_nul_index (size : Int) : Int := size - 1

/-- `show_uclamp_system_info` (uclampset.c lines 154-157): `size` is a C
`unsigned int` holding the `fread` result; the NUL store targets
`min[size - 1]`, computed in unsigned (mod 2^32) arithmetic. -/
def show_uclamp_system_nul_index (size : Nat) : Nat :=
  (size + (2 ^ 32 - 1)) % 2 ^ 32

/-! Concrete values used to exercise the model. -/

/-- A sample fetched attribute block with a previously-set util_max of 700. -/
def saB : SchedAttr := ⟨0, 0, 0, 0, 0, 0, 0, 0, 700⟩

/-- A sample kernel state: both knobs at 512, every task holding `saB`. -/
def wB : World := ⟨⟨512, 512⟩, fun _ => saB⟩

/-- A kernel that accepts every `sched_setattr` and stores it verbatim, with
no enumerated threads. -/
def envAccept : TaskEnv := ⟨fun _ sa => some sa, []⟩

/-- Control block after `getopt` for an invocation of the form
`uclampset -p ... 1234`. -/
def pctl : Uclampset := ⟨0, 0, 1234, false, false, false⟩

/-- Control block after `getopt` for a plain `uclampset ...` invocation (no
options). -/
def dctl : Uclampset := ⟨0, 0, -1, false, false, false⟩

/-- Control block for a system-scope apply of the pair 1024/1024. -/
def sctl : Uclampset := ⟨1024, 1024, -1, false, true, false⟩

/-- Verbose per-task request for the (out-of-range) pair 2000/2000 on
pid 7. -/
def ctlC : Uclampset := ⟨2000, 2000, 7, false, false, true⟩

/-- A kernel that stores every submission but clamps both bounds to 1024
(kernel-side adjustment, so the stored value differs from the request). -/
def envC : TaskEnv :=
  ⟨fun _ sa =>
     some { sa with
              sched_util_min := min sa.sched_util_min 1024,
              sched_util_max := min sa.sched_util_max 1024 }, []⟩

/-- Per-tid acceptance: every tid but 30 succeeds. -/
def okW : Int → Bool := fun t => ! (t == 30)

/-- All-tasks request used with `okW`. -/
def ctlW : Uclampset := ⟨100, 200, 5, true, false, false⟩

/-- A per-task request for the pair 100/200 on pid 7. -/
def ctl100 : Uclampset := ⟨100, 200, 7, false, false, false⟩

/-- A system-scope request with util_min 300 greater than util_max 200. -/
def sctlBad : Uclampset := ⟨300, 200, -1, false, true, false⟩

/-- Control block after `getopt` for a pure query `uclampset -p 5`. -/
def ctlQ : Uclampset := ⟨0, 0, 5, false, false, false⟩

/-! Helper lemmas. -/

theorem strtos32_range (l : List Char) (v : Int) (h : strtos32 l = some v) :
    -(2 ^ 31) ≤ v ∧ v ≤ 2 ^ 31 - 1 := by
  unfold strtos32 at h
  cases hp : parseIntRaw l with
  | none => rw [hp] at h; simp at h
  | some u =>
    rw [hp] at h
    simp only [Option.some_bind] at h
    split_ifs at h with hc
    cases h
    exact hc

theorem list_set_append_right (s t : List Char) (i : Nat) (c : Char) :
    (s ++ t).set (s.length + i) c = s ++ t.set i c := by
  induction s with
  | nil => simp
  | cons a s2 ih =>
    have : s2.length + 1 + i = (s2.length + i) + 1 := by omega
    simp only [List.cons_append, List.length_cons, this, List.set]
    rw [ih]

theorem knob_double_write (k : SysKnobs) (mn mx : Nat)
    (h0 : k.util_min ≤ k.util_max) (h1 : mn ≤ mx) :
    knobWriteMax mx (knobWriteMin mn (knobWriteMax mx (knobWriteMin mn k))) =
      ⟨mn, mx⟩ := by
  obtain ⟨a, b⟩ := k
  simp only [knobWriteMin, knobWriteMax] at *
  split_ifs <;> simp_all
  all_goals omega

theorem show_uclamp_info_eff_no_write (ctl : Uclampset) (env : TaskEnv)
    (w : World) : ∀ e ∈ show_uclamp_info_eff ctl env w, e.isWrite = false := by
  unfold show_uclamp_info_eff
  split_ifs with h1 h2
  · intro e he; simp at he; subst he; rfl
  · intro e he
    simp only [List.mem_map] at he
    obtain ⟨t, _, rfl⟩ := he
    rfl
  · intro e he; simp at he; subst he; rfl

theorem preShow1_no_write (ctl0 : Uclampset) (args : List String)
    (env : TaskEnv) (w : World) :
    ∀ e ∈ preShow1 ctl0 args env w, e.isWrite = false := by
  unfold preShow1
  split_ifs with h
  · exact show_uclamp_info_eff_no_write ctl0 env w
  · intro e he; simp at he

theorem preShow2_no_write (ctl0 : Uclampset) (args : List String)
    (env : TaskEnv) (w : World) :
    ∀ e ∈ preShow2 ctl0 args env w, e.isWrite = false := by
  unfold preShow2
  split_ifs with h
  · exact show_uclamp_info_eff_no_write ctl0 env w
  · intro e he; simp at he

theorem set_uclamp_system_t_trace_writes (mn mx : Nat) (k : SysKnobs) :
    ∀ e ∈ (set_uclamp_system_t mn mx k).2.2, e.isWrite = true := by
  unfold set_uclamp_system_t
  split_ifs with h
  · intro e he; simp at he
  · intro e he
    simp only [List.mem_cons, List.not_mem_nil, or_false] at he
    rcases he with rfl | rfl | rfl | rfl <;> rfl

theorem set_uclamp_pid_run_trace_writes (ctl : Uclampset) (env : TaskEnv)
    (store : Int → SchedAttr) :
    ∀ e ∈ (set_uclamp_pid_run ctl env store).2.2, e.isWrite = true := by
  unfold set_uclamp_pid_run
  split_ifs with h
  · split
    · intro e he
      simp only [List.mem_map] at he
      obtain ⟨t, _, rfl⟩ := he
      rfl
    · intro e he
      simp only [List.mem_map] at he
      obtain ⟨t, _, rfl⟩ := he
      rfl
  · split
    · intro e he; simp at he; subst he; rfl
    · intro e he; simp at he; subst he; rfl

/-! Claim theorems. -/

/-- C1 (amended): every per-task set operation carries both bounds — `struct
uclampset` has plain `unsigned int` fields, so no bound can be unset — and
`set_uclamp_one` overwrites BOTH `sched_util_min` and `sched_util_max` of the
just-fetched attribute block with the request's values, while the scheduling
policy and the numeric parameters of the fetched block are preserved and the
submission flags are KEEP_POLICY, KEEP_PARAMS, UTIL_CLAMP_MIN and
UTIL_CLAMP_MAX (bitwise or 120). -/
theorem set_uclamp_one_overwrites_both_bounds (ctl : Uclampset) (sa : SchedAttr) :
    (set_uclamp_one_attr ctl sa).sched_policy = sa.sched_policy ∧
    (set_uclamp_one_attr ctl sa).sched_nice = sa.sched_nice ∧
    (set_uclamp_one_attr ctl sa).sched_priority = sa.sched_priority ∧
    (set_uclamp_one_attr ctl sa).sched_runtime = sa.sched_runtime ∧
    (set_uclamp_one_attr ctl sa).sched_deadline = sa.sched_deadline ∧
    (set_uclamp_one_attr ctl sa).sched_period = sa.sched_period ∧
    (set_uclamp_one_attr ctl sa).sched_util_min = ctl.util_min ∧
    (set_uclamp_one_attr ctl sa).sched_util_max = ctl.util_max ∧
    (set_uclamp_one_attr ctl sa).sched_flags = 120 := by
  refine ⟨rfl, rfl, rfl, rfl, rfl, rfl, rfl, rfl, ?_⟩
  simp only [set_uclamp_one_attr]
  decide

/-- C1 (counterexample): the code offers no per-task set operation with
util_max unset.  The invocation closest to "apply only util_min"
(`uclampset -p 100 1234`, i.e. one bound plus the pid) is rejected as a usage
error without performing any set, and every per-task set operation that does
run overwrites a previously-set util_max (here 700) with the request's
util_max (here 200) instead of leaving it unchanged. -/
theorem uclampset_no_partial_request_counterexample :
    (mainRun pctl ["100", "1234"] envAccept wB).err = some UclampErr.badUsage ∧
    (mainRun pctl ["100", "1234"] envAccept wB).trace = [] ∧
    (set_uclamp_one_attr ctl100 saB).sched_util_max = 200 ∧
    saB.sched_util_max = 700 :=
  ⟨by decide, by decide, by decide, by decide⟩

/-- C3: a system-scope apply whose util_min exceeds its util_max fails with
the locally-checked invariant violation (uclampset.c lines 254-257) before any
knob file is opened or written: the run errors with an empty effect trace and
both the knob files and the task store are unchanged. -/
theorem system_invariant_checked_before_io (ctl : Uclampset)
    (execArgs : List String) (env : TaskEnv) (w : World)
    (hs : ctl.system = true) (h : ctl.util_max < ctl.util_min) :
    (applyAndReport ctl execArgs env w).err = some UclampErr.invariantViolation ∧
    (applyAndReport ctl execArgs env w).trace = [] ∧
    (applyAndReport ctl execArgs env w).world.knobs = w.knobs ∧
    (applyAndReport ctl execArgs env w).world.tasks = w.tasks := by
  simp [applyAndReport, set_uclamp_system_t, hs, h]

/-- C3 witness at the concrete request min 300 / max 200. -/
theorem system_invariant_checked_before_io_witness :
    sctlBad.system = true ∧ sctlBad.util_max < sctlBad.util_min ∧
    (applyAndReport sctlBad [] envAccept wB).err =
      some UclampErr.invariantViolation ∧
    (applyAndReport sctlBad [] envAccept wB).trace = [] :=
  ⟨by decide, by decide,
   (system_invariant_checked_before_io sctlBad [] envAccept wB (by decide)
     (by decide)).1,
   (system_invariant_checked_before_io sctlBad [] envAccept wB (by decide)
     (by decide)).2.1⟩

/-- C7: applying any valid pair (min <= max <= 1024) to a process through
`set_uclamp_one` and reading the process back yields exactly that pair (the
kernel attribute store accepts and records valid pairs verbatim). -/
theorem set_uclamp_roundtrip (store : Int → SchedAttr) (p : Int) (mn mx : Nat)
    (a s vb : Bool) (h1 : mn ≤ mx) (h2 : mx ≤ 1024) :
    ∃ store2,
      set_uclamp_one_run ⟨mn, mx, p, a, s, vb⟩ kernelValidSetattr store p =
        some store2 ∧
      (store2 p).sched_util_min = mn ∧ (store2 p).sched_util_max = mx := by
  refine ⟨updateTask store p
    (set_uclamp_one_attr ⟨mn, mx, p, a, s, vb⟩ (store p)), ?_, ?_, ?_⟩
  · simp [set_uclamp_one_run, kernelValidSetattr, set_uclamp_one_attr, h1, h2]
  · simp [updateTask, set_uclamp_one_attr]
  · simp [updateTask, set_uclamp_one_attr]

/-- C7 witness: the pair 100/200 round-trips on pid 7. -/
theorem set_uclamp_roundtrip_witness :
    (100 ≤ 200 ∧ 200 ≤ 1024) ∧
    ∃ store2,
      set_uclamp_one_run ⟨100, 200, 7, false, false, false⟩ kernelValidSetattr
        (fun _ => saB) 7 = some store2 ∧
      (store2 7).sched_util_min = 100 ∧ (store2 7).sched_util_max = 200 :=
  ⟨by decide,
   set_uclamp_roundtrip (fun _ => saB) 7 100 200 false false false
     (by decide) (by decide)⟩

/-- C9: a bound argument parsed by `strtos32_or_err` as a negative 32-bit
integer is accepted, stored into the `unsigned int` field as its value modulo
2^32 (a large positive value, at least 2^31), and that wrapped value is what
`set_uclamp_one` submits in the attribute block. -/
theorem strtos32_negative_wraps_to_unsigned (l : List Char) (v : Int)
    (h1 : strtos32 l = some v) (h2 : v < 0) :
    uintOfInt v = (v + 2 ^ 32).toNat ∧
    2 ^ 31 ≤ uintOfInt v ∧
    ∀ (mx : Nat) (p : Int) (a s vb : Bool) (sa : SchedAttr),
      (set_uclamp_one_attr ⟨uintOfInt v, mx, p, a, s, vb⟩ sa).sched_util_min =
        (v + 2 ^ 32).toNat := by
  obtain ⟨hlo, hhi⟩ := strtos32_range l v h1
  have hmod : v % 2 ^ 32 = v + 2 ^ 32 := by omega
  refine ⟨?_, ?_, ?_⟩
  · unfold uintOfInt; rw [hmod]
  · unfold uintOfInt; rw [hmod]; omega
  · intro mx p a s vb sa
    have hx : uintOfInt v = (v + 2 ^ 32).toNat := by
      unfold uintOfInt; rw [hmod]
    exact hx

/-- C9 witness: the argument "-1" parses to -1, is stored as 4294967295, is
submitted as sched_util_min 4294967295, and a full run with it reaches the
kernel instead of being rejected locally. -/
theorem strtos32_negative_wraps_witness :
    strtos32 ['-', '1'] = some (-1) ∧
    uintOfInt (-1) = 4294967295 ∧
    2 ^ 31 ≤ uintOfInt (-1) ∧
    (set_uclamp_one_attr ⟨uintOfInt (-1), 1024, 0, false, false, false⟩
      saB).sched_util_min = 4294967295 ∧
    (mainRun dctl ["-1", "1024", "x"] envAccept wB).err = none ∧
    ((mainRun dctl ["-1", "1024", "x"] envAccept wB).world.tasks 0).sched_util_min =
      4294967295 := by
  have h := strtos32_negative_wraps_to_unsigned ['-', '1'] (-1) (by decide)
    (by decide)
  exact ⟨by decide, h.1, h.2.1, h.2.2 1024 0 false false false saB,
    by decide, by decide⟩

/-- C10 (counterexample): in `show_uclamp_system_info` the `fread` size is a C
`unsigned int`, so for an empty file (zero bytes read) the NUL store index
`size - 1` wraps to 4294967295 — outside the 16-byte buffer, but not the
value -1 the claim states for every read path. -/
theorem nul_index_unsigned_wrap_counterexample :
    show_uclamp_system_nul_index 0 = 4294967295 ∧
    ¬ show_uclamp_system_nul_index 0 < 16 ∧
    (show_uclamp_system_nul_index 0 : Int) ≠ -1 ∧
    proc_pid_name_nul_index 0 = -1 :=
  ⟨by decide, by decide, by decide, by decide⟩

/-- C10 (amended): both read paths place the newline-stripping NUL at buffer
index size-1, which is inside the buffer only when size >= 1; for an empty
read, `proc_pid_name` (signed size) computes index -1 and
`show_uclamp_system_info` (unsigned size) computes index 2^32 - 1, both
outside their buffers. -/
theorem nul_index_characterization (size : Nat) (h1 : 1 ≤ size)
    (h2 : size ≤ 16) :
    show_uclamp_system_nul_index size = size - 1 ∧
    show_uclamp_system_nul_index size < 16 ∧
    proc_pid_name_nul_index (size : Int) = (size : Int) - 1 ∧
    show_uclamp_system_nul_index 0 = 2 ^ 32 - 1 ∧
    ¬ show_uclamp_system_nul_index 0 < 16 ∧
    proc_pid_name_nul_index 0 = -1 ∧
    proc_pid_name_nul_index 0 < 0 := by
  unfold show_uclamp_system_nul_index proc_pid_name_nul_index
  refine ⟨by omega, by omega, rfl, by decide, by decide, by decide, by decide⟩

/-- C10 witness at size 3 (a three-byte read). -/
theorem nul_index_characterization_witness :
    (1 ≤ 3 ∧ 3 ≤ 16) ∧
    show_uclamp_system_nul_index 3 = 2 ∧
    proc_pid_name_nul_index 3 = 2 :=
  ⟨by decide, (nul_index_characterization 3 (by decide) (by decide)).1,
   (nul_index_characterization 3 (by decide) (by decide)).2.2.1⟩

/-- C4: over a task set enumerated as `L`, with thread k the first to fail,
the all-tasks loop visits threads in enumeration order, attempts exactly
threads 0..k (no later thread is attempted), terminates with an error naming
thread k, leaves every thread outside the first k untouched, and leaves the
mutations of threads 0..k-1 in place (both bounds set to the request, no
rollback). -/
theorem set_uclamp_tids_fail_fast_no_rollback
    (ctl : Uclampset) (ok : Int → Bool) (L : List Int) (store : Int → SchedAttr)
    (k : Nat) (hk : k < L.length)
    (hsucc : ∀ i, (hi : i < k) → ok (L.get ⟨i, Nat.lt_trans hi hk⟩) = true)
    (hfail : ok (L.get ⟨k, hk⟩) = false) :
    (set_uclamp_tids ctl (okK ok) L store).failed = some (L.get ⟨k, hk⟩) ∧
    (set_uclamp_tids ctl (okK ok) L store).attempted = L.take (k + 1) ∧
    (∀ t, t ∉ L.take k → (set_uclamp_tids ctl (okK ok) L store).store t = store t) ∧
    (∀ t, t ∈ L.take k →
      ((set_uclamp_tids ctl (okK ok) L store).store t).sched_util_min = ctl.util_min ∧
      ((set_uclamp_tids ctl (okK ok) L store).store t).sched_util_max = ctl.util_max) := by
  induction L generalizing k store with
  | nil => exact absurd hk (Nat.not_lt_zero k)
  | cons tid rest ih =>
    cases k with
    | zero =>
      have h0 : ok tid = false := hfail
      simp only [set_uclamp_tids, set_uclamp_one_run, okK, h0, Bool.false_eq_true,
        if_false]
      refine ⟨rfl, by simp, ?_, ?_⟩
      · intro t ht; trivial
      · intro t ht; simp at ht
    | succ k2 =>
      have h0 : ok tid = true := hsucc 0 (Nat.succ_pos k2)
      have hk2 : k2 < rest.length := Nat.lt_of_succ_lt_succ hk
      have hsucc2 : ∀ i, (hi : i < k2) → ok (rest.get ⟨i, Nat.lt_trans hi hk2⟩) = true :=
        fun i hi => hsucc (i + 1) (Nat.succ_lt_succ hi)
      have hfail2 : ok (rest.get ⟨k2, hk2⟩) = false := hfail
      obtain ⟨ih1, ih2, ih3, ih4⟩ :=
        ih (updateTask store tid (set_uclamp_one_attr ctl (store tid))) k2 hk2 hsucc2 hfail2
      simp only [set_uclamp_tids, set_uclamp_one_run, okK, h0, if_true]
      refine ⟨ih1, ?_, ?_, ?_⟩
      · rw [List.take_succ_cons, ih2]
      · intro t ht
        rw [List.take_succ_cons] at ht
        simp only [List.mem_cons, not_or] at ht
        rw [ih3 t ht.2]
        simp [updateTask, ht.1]
      · intro t ht
        rw [List.take_succ_cons] at ht
        rcases List.mem_cons.mp ht with h | h
        · subst h
          by_cases hm : t ∈ rest.take k2
          · exact ih4 t hm
          · rw [ih3 t hm]
            simp [updateTask, set_uclamp_one_attr]
        · exact ih4 t h

/-- C4 witness: tids 10, 20, 30, 40 with 30 failing — 10 and 20 are mutated,
the loop stops at 30 naming it, and 40 is untouched. -/
theorem set_uclamp_tids_fail_fast_witness :
    okW 10 = true ∧ okW 20 = true ∧ okW 30 = false ∧
    (set_uclamp_tids ctlW (okK okW) [10, 20, 30, 40] (fun _ => saB)).failed =
      some 30 ∧
    (set_uclamp_tids ctlW (okK okW) [10, 20, 30, 40] (fun _ => saB)).attempted =
      [10, 20, 30] ∧
    (set_uclamp_tids ctlW (okK okW) [10, 20, 30, 40] (fun _ => saB)).store 40 =
      (fun _ => saB) 40 ∧
    ((set_uclamp_tids ctlW (okK okW) [10, 20, 30, 40] (fun _ => saB)).store
      10).sched_util_min = 100 := by
  have h := set_uclamp_tids_fail_fast_no_rollback ctlW okW [10, 20, 30, 40]
    (fun _ => saB) 2 (by decide) (by decide) (by decide)
  exact ⟨by decide, by decide, by decide, h.1, h.2.1, h.2.2.1 40 (by decide),
    (h.2.2.2 10 (by decide)).1⟩

/-- C8 (counterexample): the system-scope write for value 512 passes 16 bytes
to `fwrite` (`fwrite(buf, 1, sizeof(buf), fp)` writes the whole 16-byte
buffer), not the 4 bytes of "512" followed by a newline: beyond the newline
it also writes a NUL and the residual buffer contents. -/
theorem sys_write_content_not_exact_counterexample :
    (set_uclamp_system_buf 512 (List.replicate 16 'X')).length = 16 ∧
    (['5', '1', '2', '\n'] : List Char).length = 4 ∧
    set_uclamp_system_buf 512 (List.replicate 16 'X') ≠ ['5', '1', '2', '\n'] :=
  ⟨by decide, by decide, by decide⟩

/-- C8 (amended): the single `fwrite` writes the whole 16-byte buffer, whose
content is the decimal text of the value, then a newline, then a NUL, then
the residual bytes of the buffer past the rendered prefix. -/
theorem sys_write_buffer_layout (v : Nat) (buf : List Char)
    (hb : buf.length = 16) (hs2 : (snprintf_d v).length + 2 ≤ 16) :
    set_uclamp_system_buf v buf =
      snprintf_d v ++ ['\n', Char.ofNat 0]
        ++ buf.drop ((snprintf_d v).length + 2) ∧
    (set_uclamp_system_buf v buf).length = 16 := by
  have hlt : (snprintf_d v).length + 1 < buf.length := by omega
  have hdec : buf.drop ((snprintf_d v).length + 1) =
      buf[(snprintf_d v).length + 1] :: buf.drop ((snprintf_d v).length + 2) :=
    List.drop_eq_getElem_cons hlt
  have h1 : set_uclamp_system_buf v buf =
      snprintf_d v ++ ['\n', Char.ofNat 0]
        ++ buf.drop ((snprintf_d v).length + 2) := by
    unfold set_uclamp_system_buf overwriteBuf
    rw [List.length_append, List.length_singleton]
    rw [List.append_assoc]
    have e0 : (snprintf_d v).length = (snprintf_d v).length + 0 := rfl
    rw [e0, list_set_append_right]
    simp only [List.set]
    have e1 : (snprintf_d v).length + 0 + 1 = (snprintf_d v).length + 1 := rfl
    rw [e1, list_set_append_right]
    simp only [List.set]
    rw [hdec]
    simp [List.set]
  exact ⟨h1, by rw [h1]; simp [List.length_append, List.length_drop, hb]; omega⟩

/-- C8 witness at value 512 with a fresh buffer of 16 'X' bytes. -/
theorem sys_write_buffer_layout_witness :
    ((List.replicate 16 'X').length = 16 ∧ (snprintf_d 512).length + 2 ≤ 16) ∧
    set_uclamp_system_buf 512 (List.replicate 16 'X') =
      snprintf_d 512 ++ ['\n', Char.ofNat 0]
        ++ (List.replicate 16 'X').drop ((snprintf_d 512).length + 2) :=
  ⟨⟨by decide, by decide⟩,
   (sys_write_buffer_layout 512 (List.replicate 16 'X') (by decide)
     (by decide)).1⟩

/-- C2: a system-scope mutation performs the min-then-max write sequence
twice (visible as the eight write-mode file effects in the trace), and for any
old knob pair satisfying the kernel's cross-file check (old min <= old max)
and any new pair with min <= max, the run succeeds and the final knob state
equals the new pair. -/
theorem applyAndReport_system_double_write (ctl : Uclampset)
    (execArgs : List String) (env : TaskEnv) (w : World)
    (hs : ctl.system = true)
    (h0 : w.knobs.util_min ≤ w.knobs.util_max)
    (h1 : ctl.util_min ≤ ctl.util_max) :
    (applyAndReport ctl execArgs env w).err = none ∧
    (applyAndReport ctl execArgs env w).world.knobs =
      ⟨ctl.util_min, ctl.util_max⟩ ∧
    List.filter Effect.isWrite (applyAndReport ctl execArgs env w).trace =
      [Effect.sysOpen true, Effect.sysOpen false,
       Effect.sysWrite true ctl.util_min, Effect.sysWrite false ctl.util_max,
       Effect.sysOpen true, Effect.sysOpen false,
       Effect.sysWrite true ctl.util_min, Effect.sysWrite false ctl.util_max] := by
  have hnm : ¬ ctl.util_max < ctl.util_min := by omega
  have hk := knob_double_write w.knobs ctl.util_min ctl.util_max h0 h1
  simp only [applyAndReport, set_uclamp_system_t, hs, if_true, hnm, if_false,
    finishVerbose, Bool.true_eq_false, and_false]
  refine ⟨trivial, hk, ?_⟩
  cases hv : ctl.verbose <;>
    simp [hv, hs, List.filter_append, Effect.isWrite, show_uclamp_info_eff]

/-- C2 witness: the spec's own sequence — old knobs 512/512, new pair
1024/1024 — succeeds and reads back as 1024/1024. -/
theorem applyAndReport_system_double_write_witness :
    sctl.system = true ∧ wB.knobs.util_min ≤ wB.knobs.util_max ∧
    sctl.util_min ≤ sctl.util_max ∧
    (applyAndReport sctl [] envAccept wB).err = none ∧
    (applyAndReport sctl [] envAccept wB).world.knobs = ⟨1024, 1024⟩ := by
  have h := applyAndReport_system_double_write sctl [] envAccept wB
    (by decide) (by decide) (by decide)
  exact ⟨by decide, by decide, by decide, h.1, h.2.1⟩

/-- C5: an invocation carrying no bound argument (at most one positional: the
pid of a `-p` query, or nothing) never writes: the kernel state is returned
unchanged and the trace contains no write effect, in every scope. -/
theorem mainRun_query_performs_no_write (ctl0 : Uclampset) (args : List String)
    (env : TaskEnv) (w : World) (h : args.length ≤ 1) :
    (mainRun ctl0 args env w).world = w ∧
    ∀ e ∈ (mainRun ctl0 args env w).trace, e.isWrite = false := by
  unfold mainRun
  split_ifs with h1 h2 h3 h4
  · exact ⟨rfl, by intro e he; simp at he⟩
  · exact ⟨rfl, preShow1_no_write ctl0 args env w⟩
  · refine ⟨rfl, ?_⟩
    intro e he
    rcases List.mem_append.mp he with hh | hh
    · exact preShow1_no_write ctl0 args env w e hh
    · exact preShow2_no_write ctl0 args env w e hh
  · exfalso
    rcases h4 with ⟨hA, hB⟩ | hC
    · omega
    · omega
  · refine ⟨rfl, ?_⟩
    intro e he
    rcases List.mem_append.mp he with hh | hh
    · exact preShow1_no_write ctl0 args env w e hh
    · exact preShow2_no_write ctl0 args env w e hh

/-- C5 witness: the pure query `uclampset -p 5` only displays the read-back
values and leaves the kernel state untouched. -/
theorem mainRun_query_performs_no_write_witness :
    (["5"] : List String).length ≤ 1 ∧
    (mainRun ctlQ ["5"] envAccept wB).world = wB ∧
    (mainRun ctlQ ["5"] envAccept wB).err = none ∧
    (mainRun ctlQ ["5"] envAccept wB).trace = [Effect.showTask 5 0 700] := by
  have h := mainRun_query_performs_no_write ctlQ ["5"] envAccept wB (by decide)
  exact ⟨by decide, h.1, by decide, by decide⟩

/-- C6: on every successful mutation with verbose set, the values displayed
afterwards are produced by re-reading the final kernel state (the show
effects are computed from the run's final world, after the write effects),
not by echoing the request; an exec tail may follow for the calling-process
scope. -/
theorem applyAndReport_verbose_rereads_final_state (ctl : Uclampset)
    (execArgs : List String) (env : TaskEnv) (w : World)
    (hv : ctl.verbose = true)
    (hok : (applyAndReport ctl execArgs env w).err = none) :
    ∃ pre tail,
      (applyAndReport ctl execArgs env w).trace =
        pre ++ show_uclamp_info_eff ctl env (applyAndReport ctl execArgs env w).world
          ++ tail ∧
      (∀ e ∈ pre, e.isWrite = true) ∧
      (tail = [] ∨ tail = [Effect.execCmd execArgs]) := by
  by_cases hs : ctl.system = true
  · rcases hr1 : set_uclamp_system_t ctl.util_min ctl.util_max w.knobs with ⟨e1, k1, tr1⟩
    cases e1 with
    | some e =>
      simp only [applyAndReport, hs, if_true, hr1] at hok
      exact Option.noConfusion hok
    | none =>
      rcases hr2 : set_uclamp_system_t ctl.util_min ctl.util_max k1 with ⟨e2, k2, tr2⟩
      cases e2 with
      | some e =>
        simp only [applyAndReport, hs, if_true, hr1, hr2] at hok
        exact Option.noConfusion hok
      | none =>
        have hw1 : ∀ e ∈ tr1, e.isWrite = true := by
          have hx := set_uclamp_system_t_trace_writes ctl.util_min ctl.util_max w.knobs
          rw [hr1] at hx; exact hx
        have hw2 : ∀ e ∈ tr2, e.isWrite = true := by
          have hx := set_uclamp_system_t_trace_writes ctl.util_min ctl.util_max k1
          rw [hr2] at hx; exact hx
        refine ⟨tr1 ++ tr2, [], ?_, ?_, Or.inl rfl⟩
        · simp only [applyAndReport, hs, if_true, hr1, hr2, finishVerbose, hv]
          simp [hs]
        · intro e he
          rcases List.mem_append.mp he with hh | hh
          · exact hw1 e hh
          · exact hw2 e hh
  · have hsf : ctl.system = false := by
      cases hcs : ctl.system
      · rfl
      · exact absurd hcs hs
    rcases hr : set_uclamp_pid_run ctl env w.tasks with ⟨e1, st, tr⟩
    cases e1 with
    | some e =>
      simp only [applyAndReport, hs, if_false, hr] at hok
      exact Option.noConfusion hok
    | none =>
      have hw : ∀ e ∈ tr, e.isWrite = true := by
        have hx := set_uclamp_pid_run_trace_writes ctl env w.tasks
        rw [hr] at hx; exact hx
      by_cases hp : ctl.pid = 0
      · refine ⟨tr, [Effect.execCmd execArgs], ?_, hw, Or.inr rfl⟩
        simp [applyAndReport, hsf, hr, finishVerbose, hp, hv]
      · refine ⟨tr, [], ?_, hw, Or.inl rfl⟩
        simp [applyAndReport, hsf, hr, finishVerbose, hp, hv]

/-- C6 witness: a verbose request for 2000/2000 against a kernel that clamps
stored values to 1024 displays the stored 1024/1024, not the requested
2000/2000. -/
theorem applyAndReport_verbose_rereads_witness :
    ctlC.verbose = true ∧
    (applyAndReport ctlC [] envC wB).err = none ∧
    (∃ pre tail,
      (applyAndReport ctlC [] envC wB).trace =
        pre ++ show_uclamp_info_eff ctlC envC (applyAndReport ctlC [] envC wB).world
          ++ tail ∧
      (∀ e ∈ pre, e.isWrite = true) ∧
      (tail = [] ∨ tail = [Effect.execCmd []])) ∧
    (applyAndReport ctlC [] envC wB).trace =
      [Effect.taskSet 7, Effect.showTask 7 1024 1024] ∧
    ctlC.util_min = 2000 ∧
    ((applyAndReport ctlC [] envC wB).world.tasks 7).sched_util_min = 1024 := by
  have h := applyAndReport_verbose_rereads_final_state ctlC [] envC wB
    (by decide) (by decide)
  exact ⟨by decide, by decide, h, by decide, by decide, by decide⟩

end UclampModel
